import Mathlib

/-!
Verification of the "Chat with CSV" application (`src/app.py`).

The development shallow-embeds the Python program in Lean:

* `Scalar` and `Table` model pandas cell values and `pd.DataFrame`
  (an ordered list of column names plus positionally aligned rows);
* `PyVal` models the runtime-typed Python value returned by the external
  query engine (`pandas_ai.chat`): a DataFrame, a list, a dict, or a
  plain scalar/text value;
* `pdDataFrame` models the `pd.DataFrame(result)` constructor on the
  reply shapes the application exercises (list of records, dict of
  columns, dict of scalars), returning `Except` to model a raised
  `ValueError`;
* `chat_with_csv` embeds the dispatcher of `app.py` lines 17-36: the
  engine call is abstracted by a function argument whose `Except` result
  models an uncaught exception from `pandas_ai.chat`, and the returned
  `DispatchOut` carries both the function result (again `Except`, so
  that "the function raises" is representable) and the list of
  diagnostic `print` lines;
* `appRun` embeds the top-level script (lines 9-65) as a function from
  the process environment, upload state, query text and button state to
  the list of UI events the framework would observe, including the
  `st.error`/`st.stop` startup path and the two-column render flow.
-/

/-- A pandas cell value: missing (NaN), an integer, or a string. -/
inductive Scalar where
  | sNone : Scalar
  | sInt : Int → Scalar
  | sStr : String → Scalar
deriving DecidableEq, Repr

/-- A pandas DataFrame: ordered column names and positionally aligned rows. -/
structure Table where
  cols : List String
  rows : List (List Scalar)
deriving DecidableEq, Repr

/-- A runtime-typed Python value as classified by the `isinstance` cascade in
`chat_with_csv`: a DataFrame, a list, a dict, or a plain scalar/text value. -/
inductive PyVal where
  | table : Table → PyVal
  | vlist : List PyVal → PyVal
  | vdict : List (String × PyVal) → PyVal
  | scalar : Scalar → PyVal

/-- `isinstance(result, pd.DataFrame)` (line 22 of `app.py`). -/
def isTable : PyVal → Bool
  | .table _ => true
  | _ => false

/-- `isinstance(result, list) or isinstance(result, dict)` (line 25 of `app.py`). -/
def isListOrDict : PyVal → Bool
  | .vlist _ => true
  | .vdict _ => true
  | _ => false

/-- Whether a Python value is a plain scalar (not a list/dict/DataFrame). -/
def isScalarV : PyVal → Bool
  | .scalar _ => true
  | _ => false

/-- Extract the scalar from a scalar-shaped value. -/
def scalarOf? : PyVal → Option Scalar
  | .scalar s => some s
  | _ => none

/-- Option-valued map over a list: `some` of the image when `f` succeeds
everywhere, `none` otherwise.  Used to model pandas' shape checks. -/
def mapO {α β : Type} (f : α → Option β) : List α → Option (List β)
  | [] => some []
  | x :: xs =>
    match f x, mapO f xs with
    | some y, some ys => some (y :: ys)
    | _, _ => none

/-- View a Python value as a row record (a dict whose values are scalars),
as consumed by `pd.DataFrame` on a list of records. -/
def recordOf? : PyVal → Option (List (String × Scalar)) :=
  fun v =>
    match v with
    | .vdict kvs =>
      mapO (fun kv =>
        match kv.2 with
        | .scalar s => some (kv.1, s)
        | _ => none) kvs
    | _ => none

/-- Append a key to an accumulator unless already present: pandas' ordered
union of record keys when building a DataFrame from a list of records. -/
def insertKey (acc : List String) (k : String) : List String :=
  if acc.contains k then acc else acc ++ [k]

/-- Ordered union of the key lists of all records. -/
def keyUnion (kss : List (List String)) : List String :=
  kss.foldl (fun acc ks => ks.foldl insertKey acc) []

/-- Cell lookup in a record: the value at the first occurrence of the column
name, or missing (NaN) when the record lacks that column. -/
def lookupCell (r : List (String × Scalar)) (c : String) : Scalar :=
  match r.find? (fun kv => kv.1 == c) with
  | some kv => kv.2
  | none => .sNone

/-- View a dict as column data: every value a list of scalars. -/
def dictColsOf? (kvs : List (String × PyVal)) : Option (List (String × List Scalar)) :=
  mapO (fun kv =>
    match kv.2 with
    | .vlist ys => (mapO scalarOf? ys).map (fun ss => (kv.1, ss))
    | _ => none) kvs

/-- pandas' check that all columns of a dict-of-lists have equal length. -/
def sameLen? (cs : List (String × List Scalar)) : Bool :=
  match cs with
  | [] => true
  | c :: rest => rest.all (fun c2 => c2.2.length == c.2.length)

/-- Build the DataFrame of a dict of equal-length columns. -/
def tableOfCols (cs : List (String × List Scalar)) : Table :=
  let n := match cs with
    | [] => 0
    | c :: _ => c.2.length
  ⟨cs.map Prod.fst, (List.range n).map (fun i => cs.map (fun c => c.2.getD i .sNone))⟩

/-- The `ValueError` message pandas raises for a dict of only scalar values. -/
def allScalarMsg : String := "If using all scalar values, you must pass an index"

/-- The `ValueError` message pandas raises for columns of different lengths. -/
def diffLenMsg : String := "All arrays must be of the same length"

/-- Model of the `pd.DataFrame(result)` constructor (line 28 of `app.py`) on
the reply shapes the application exercises.  A `.error` models a raised
exception.  On a list of records, columns are the ordered union of the record
keys and missing cells become NaN; on a nonempty dict of only scalar values
pandas raises `ValueError`; on a dict of equal-length scalar lists it builds
a column-oriented DataFrame.  Shapes outside this fragment (e.g. nested
non-scalar cells) are conservatively mapped to `.error`; every such value is
consumed by the dispatcher's catch-all handler, which is exercised only
through inputs where pandas demonstrably raises. -/
def pdDataFrame : PyVal → Except String Table
  | .vlist xs =>
    match mapO recordOf? xs with
    | some recs =>
      let cols := keyUnion (recs.map (fun r => r.map Prod.fst))
      .ok ⟨cols, recs.map (fun r => cols.map (fun c => lookupCell r c))⟩
    | none => .error "unsupported list shape"
  | .vdict kvs =>
    if kvs.isEmpty then .ok ⟨[], []⟩
    else if kvs.all (fun kv => isScalarV kv.2) then .error allScalarMsg
    else
      match dictColsOf? kvs with
      | some cs => if sameLen? cs then .ok (tableOfCols cs) else .error diffLenMsg
      | none => .error "unsupported dict shape"
  | _ => .error "not a list or dict"

/-- The diagnostic line printed on conversion failure (line 33 of `app.py`). -/
def convFailMsg : String := "Could Not Convert Result To DataFrame"

/-- Outcome of one `chat_with_csv` call: the function result, where `.error`
models an exception propagating out of the function uncaught, together with
the list of lines printed to stdout. -/
structure DispatchOut where
  ret : Except String PyVal
  log : List String

/-- Whether an `Except` value is a normal result (no exception). -/
def exceptOk {ε α : Type} : Except ε α → Bool
  | .ok _ => true
  | .error _ => false

/-- Embedding of `chat_with_csv` (lines 17-36 of `app.py`).  The external
engine call `pandas_ai.chat(prompt)` is abstracted by `engine`, whose
`.error` result models an exception raised by the call; that call sits
outside any `try`, so its exception passes through.  On a normal reply the
`isinstance` cascade runs: a DataFrame is returned unchanged; a list or dict
is passed to `pd.DataFrame` inside `try`, returning the constructed frame on
success, while on failure the handler prints the diagnostic line and control
falls through to the trailing `return result` (line 36); any other value
reaches the trailing `return result` directly. -/
def chat_with_csv (engine : Table → String → Except String PyVal)
    (df : Table) (prompt : String) : DispatchOut :=
  match engine df prompt with
  | .error e => ⟨.error e, []⟩
  | .ok result =>
    match result with
    | .table t => ⟨.ok (.table t), []⟩
    | .vlist xs =>
      match pdDataFrame (.vlist xs) with
      | .ok t => ⟨.ok (.table t), []⟩
      | .error _ => ⟨.ok (.vlist xs), [convFailMsg]⟩
    | .vdict kvs =>
      match pdDataFrame (.vdict kvs) with
      | .ok t => ⟨.ok (.table t), []⟩
      | .error _ => ⟨.ok (.vdict kvs), [convFailMsg]⟩
    | .scalar s => ⟨.ok (.scalar s), []⟩

/-- An observable UI event emitted by the script, in program order: the
Streamlit widget calls of `app.py` lines 13-15 and 39-65. -/
inductive UIEvent where
  | errorBox : String → UIEvent
  | stopped : UIEvent
  | pageConfig : UIEvent
  | titleW : String → UIEvent
  | uploaderW : UIEvent
  | infoBox : String → UIEvent
  | dataframeW : PyVal → UIEvent
  | textArea : UIEvent
  | buttonW : UIEvent
  | dispatched : UIEvent
  | successW : PyVal → UIEvent
  | uncaught : String → UIEvent

/-- The startup error message of line 14 of `app.py`. -/
def keyMissingMsg : String := "⚠️ OpenAI API key missing. Please check your .env file."

/-- Python truthiness of `os.getenv` output: `not openai_api_key` is true
both when the variable is absent (`None`) and when it is the empty string. -/
def pyFalsy : Option String → Bool
  | none => true
  | some s => s.isEmpty

/-- Embedding of the top-level script of `app.py` (lines 11-65) as the list
of UI events it emits.  `apiKey` is the value of `os.getenv` for the
credential; a falsy key shows the error box and stops (lines 13-15) before
any further widget.  Otherwise the page is configured, titled, and the
uploader shown; with an uploaded table the two columns render, and when the
button is pressed the query is echoed and `chat_with_csv` invoked
(`dispatched`).  An exception from the dispatcher surfaces as `uncaught`;
a normal result is shown as a data grid when it is a DataFrame (line 63-64)
and is always passed to `st.success` (line 65). -/
def appRun (apiKey : Option String) (upload : Option Table) (queryText : String)
    (pressed : Bool) (engine : Table → String → Except String PyVal) : List UIEvent :=
  if pyFalsy apiKey then
    [.errorBox keyMissingMsg, .stopped]
  else
    [.pageConfig, .titleW "📊 Chat With CSV Using LLm Model", .uploaderW] ++
    (match upload with
     | none => []
     | some data =>
       [.infoBox "✅ CSV File Uploaded Successfully", .dataframeW (.table data),
        .infoBox "Chat Below With Your Dataset", .textArea, .buttonW] ++
       (if pressed then
          [.infoBox ("🔎 Your Query: " ++ queryText), .dispatched] ++
          (match chat_with_csv engine data queryText with
           | ⟨.error e, _⟩ => [.uncaught e]
           | ⟨.ok result, _⟩ =>
             (match result with
              | .table _ => [.dataframeW result]
              | _ => []) ++ [.successW result])
        else []))

/-- On a list- or dict-shaped reply whose conversion fails, the dispatcher
catches the exception, prints the diagnostic line, and the trailing
`return result` returns the original value. -/
theorem dispatch_conv_fail_aux (engine : Table → String → Except String PyVal)
    (df : Table) (prompt : String) (r : PyVal)
    (hld : isListOrDict r = true)
    (heng : engine df prompt = .ok r)
    (herr : exceptOk (pdDataFrame r) = false) :
    chat_with_csv engine df prompt = ⟨.ok r, [convFailMsg]⟩ := by
  unfold chat_with_csv
  rw [heng]
  cases r with
  | table t => simp [isListOrDict] at hld
  | scalar s => simp [isListOrDict] at hld
  | vlist xs =>
    cases h : pdDataFrame (.vlist xs) with
    | ok t => rw [h] at herr; simp [exceptOk] at herr
    | error e => simp [h]
  | vdict kvs =>
    cases h : pdDataFrame (.vdict kvs) with
    | ok t => rw [h] at herr; simp [exceptOk] at herr
    | error e => simp [h]

/-- A nonempty dict all of whose values are plain scalars cannot be made
into a DataFrame: pandas raises the all-scalar `ValueError`. -/
theorem pdDataFrame_scalar_dict (kvs : List (String × PyVal))
    (hne : kvs.isEmpty = false)
    (hs : ∀ kv ∈ kvs, isScalarV kv.2 = true) :
    pdDataFrame (.vdict kvs) = .error allScalarMsg := by
  simp [pdDataFrame, hne, List.all_eq_true.mpr hs]

/-- Claim C1: for every engine reply that is a list or dict for which
DataFrame construction raises, `chat_with_csv` does not raise — the
conversion exception is caught inside the function, so no exception from the
conversion step escapes the dispatcher boundary. -/
theorem conv_failure_does_not_raise (engine : Table → String → Except String PyVal)
    (df : Table) (prompt : String) (r : PyVal)
    (hld : isListOrDict r = true)
    (heng : engine df prompt = .ok r)
    (herr : exceptOk (pdDataFrame r) = false) :
    exceptOk (chat_with_csv engine df prompt).ret = true := by
  rw [dispatch_conv_fail_aux engine df prompt r hld heng herr]
  rfl

theorem conv_failure_does_not_raise_witness :
    exceptOk (chat_with_csv
      (fun _ _ => .ok (.vdict [("a", .scalar (.sInt 1))])) ⟨[], []⟩ "show a").ret = true :=
  conv_failure_does_not_raise _ _ _ (.vdict [("a", .scalar (.sInt 1))]) rfl rfl rfl

/-- Claim C2, counterexample: at the concrete failing reply `{"a": 1}` the
conversion does fail, yet the dispatcher returns a defined value — the
original un-converted dict — so the claim that the value is dropped and the
path yields no defined result is false. -/
theorem conv_failure_value_not_dropped :
    exceptOk (pdDataFrame (.vdict [("a", .scalar (.sInt 1))])) = false ∧
    (chat_with_csv (fun _ _ => .ok (.vdict [("a", .scalar (.sInt 1))])) ⟨[], []⟩ "q").ret
      = .ok (.vdict [("a", .scalar (.sInt 1))]) :=
  ⟨rfl, rfl⟩

/-- Claim C2, amended: when the engine reply is a list or dict and DataFrame
construction fails, the error is only logged (the diagnostic print line) and
the `except` branch has no explicit return; execution falls through to the
function-level trailing `return result`, so the dispatcher returns the
original un-converted value. -/
theorem conv_failure_logs_and_returns_original
    (engine : Table → String → Except String PyVal)
    (df : Table) (prompt : String) (r : PyVal)
    (hld : isListOrDict r = true)
    (heng : engine df prompt = .ok r)
    (herr : exceptOk (pdDataFrame r) = false) :
    chat_with_csv engine df prompt = ⟨.ok r, [convFailMsg]⟩ :=
  dispatch_conv_fail_aux engine df prompt r hld heng herr

theorem conv_failure_logs_and_returns_original_witness :
    chat_with_csv
      (fun _ _ => .ok (.vdict [("a", .scalar (.sInt 1)), ("b", .scalar (.sInt 2))]))
      ⟨[], []⟩ "q2"
      = ⟨.ok (.vdict [("a", .scalar (.sInt 1)), ("b", .scalar (.sInt 2))]), [convFailMsg]⟩ :=
  conv_failure_logs_and_returns_original _ _ _
    (.vdict [("a", .scalar (.sInt 1)), ("b", .scalar (.sInt 2))]) rfl rfl rfl

/-- Claim C3: a reply that is already a DataFrame is returned unchanged by
the dispatcher, with nothing printed. -/
theorem dispatch_table_identity (engine : Table → String → Except String PyVal)
    (df : Table) (prompt : String) (t : Table)
    (heng : engine df prompt = .ok (.table t)) :
    chat_with_csv engine df prompt = ⟨.ok (.table t), []⟩ := by
  unfold chat_with_csv
  rw [heng]

theorem dispatch_table_identity_witness :
    chat_with_csv (fun _ _ => .ok (.table ⟨["a"], [[.sInt 1]]⟩)) ⟨[], []⟩ "t"
      = ⟨.ok (.table ⟨["a"], [[.sInt 1]]⟩), []⟩ :=
  dispatch_table_identity _ _ _ _ rfl

/-- Claim C5: a reply that is neither a DataFrame nor a list nor a dict (a
plain scalar or text value) reaches the trailing `return result` and is
returned unchanged. -/
theorem dispatch_scalar_identity (engine : Table → String → Except String PyVal)
    (df : Table) (prompt : String) (r : PyVal)
    (ht : isTable r = false) (hld : isListOrDict r = false)
    (heng : engine df prompt = .ok r) :
    chat_with_csv engine df prompt = ⟨.ok r, []⟩ := by
  unfold chat_with_csv
  rw [heng]
  cases r with
  | table t => simp [isTable] at ht
  | vlist xs => simp [isListOrDict] at hld
  | vdict kvs => simp [isListOrDict] at hld
  | scalar s => rfl

theorem dispatch_scalar_identity_witness :
    chat_with_csv (fun _ _ => .ok (.scalar (.sStr "42"))) ⟨[], []⟩ "how many"
      = ⟨.ok (.scalar (.sStr "42")), []⟩ :=
  dispatch_scalar_identity _ _ _ (.scalar (.sStr "42")) rfl rfl rfl

/-- Claim C6: the engine call is unguarded — for every table and prompt, if
`pandas_ai.chat` raises, the exception propagates out of `chat_with_csv`
uncaught (only the post-hoc conversion is wrapped in a handler). -/
theorem engine_exception_propagates (engine : Table → String → Except String PyVal)
    (df : Table) (prompt : String) (e : String)
    (heng : engine df prompt = .error e) :
    chat_with_csv engine df prompt = ⟨.error e, []⟩ := by
  unfold chat_with_csv
  rw [heng]

theorem engine_exception_propagates_witness :
    chat_with_csv (fun _ _ => .error "openai auth failure") ⟨["c"], []⟩ "p"
      = ⟨.error "openai auth failure", []⟩ :=
  engine_exception_propagates _ _ _ _ rfl

/-- Claim C10: for a reply that is a single nonempty record mapping every
column name to a plain scalar, DataFrame construction raises, the exception
is caught, and the dispatcher returns the original dict unchanged via the
trailing `return result` — the conversion-failure path yields a defined
value, the un-converted input. -/
theorem scalar_record_returns_original_dict
    (engine : Table → String → Except String PyVal)
    (df : Table) (prompt : String) (kvs : List (String × PyVal))
    (hne : kvs.isEmpty = false)
    (hs : ∀ kv ∈ kvs, isScalarV kv.2 = true)
    (heng : engine df prompt = .ok (.vdict kvs)) :
    pdDataFrame (.vdict kvs) = .error allScalarMsg ∧
    chat_with_csv engine df prompt = ⟨.ok (.vdict kvs), [convFailMsg]⟩ := by
  have hpd := pdDataFrame_scalar_dict kvs hne hs
  exact ⟨hpd, dispatch_conv_fail_aux engine df prompt _ rfl heng (by rw [hpd]; rfl)⟩

theorem scalar_record_returns_original_dict_witness :
    pdDataFrame (.vdict [("a", .scalar (.sInt 1))]) = .error allScalarMsg ∧
    chat_with_csv (fun _ _ => .ok (.vdict [("a", .scalar (.sInt 1))])) ⟨["x"], []⟩ "rec"
      = ⟨.ok (.vdict [("a", .scalar (.sInt 1))]), [convFailMsg]⟩ :=
  scalar_record_returns_original_dict _ _ _ [("a", .scalar (.sInt 1))] rfl
    (by intro kv h; simp at h; rw [h]; rfl) rfl

/-- Inserting a key that is already present leaves the accumulator unchanged. -/
theorem insertKey_mem (acc : List String) (k : String) (h : k ∈ acc) :
    insertKey acc k = acc := by
  simp [insertKey, h]

/-- Inserting a fresh key appends it at the end. -/
theorem insertKey_not_mem (acc : List String) (k : String) (h : k ∉ acc) :
    insertKey acc k = acc ++ [k] := by
  simp [insertKey, h]

/-- Folding keys that are all already present is the identity. -/
theorem foldl_insertKey_allIn (ks : List String) :
    ∀ acc : List String, (∀ k ∈ ks, k ∈ acc) → ks.foldl insertKey acc = acc := by
  induction ks with
  | nil => intro acc _; rfl
  | cons k rest ih =>
    intro acc h
    rw [List.foldl_cons, insertKey_mem acc k (h k (List.mem_cons_self k rest))]
    exact ih acc (fun k' hk' => h k' (List.mem_cons_of_mem k hk'))

/-- Folding distinct keys disjoint from the accumulator appends them in order. -/
theorem foldl_insertKey_fresh (ks : List String) :
    ∀ acc : List String, ks.Nodup → (∀ k ∈ ks, k ∉ acc) →
      ks.foldl insertKey acc = acc ++ ks := by
  induction ks with
  | nil => intro acc _ _; simp
  | cons k rest ih =>
    intro acc hnd hf
    obtain ⟨hkr, hnd'⟩ := List.nodup_cons.mp hnd
    have hf' : ∀ k' ∈ rest, k' ∉ acc ++ [k] := by
      intro k' hk' hmem
      rcases List.mem_append.mp hmem with h1 | h2
      · exact hf k' (List.mem_cons_of_mem k hk') h1
      · exact hkr ((List.mem_singleton.mp h2) ▸ hk')
    rw [List.foldl_cons, insertKey_not_mem acc k (hf k (List.mem_cons_self k rest)),
      ih (acc ++ [k]) hnd' hf']
    simp

/-- The ordered key union of `n + 1` copies of a duplicate-free key list is
that key list itself. -/
theorem keyUnion_replicate (cols : List String) (hnd : cols.Nodup) (n : Nat) :
    keyUnion (List.replicate (n + 1) cols) = cols := by
  have h1 : cols.foldl insertKey [] = cols := by
    have h := foldl_insertKey_fresh cols [] hnd (fun k _ => List.not_mem_nil k)
    simpa using h
  have h2 : ∀ m, (List.replicate m cols).foldl (fun acc ks => ks.foldl insertKey acc) cols
      = cols := by
    intro m
    induction m with
    | zero => rfl
    | succ m ihm =>
      rw [List.replicate_succ, List.foldl_cons, foldl_insertKey_allIn cols cols (fun k hk => hk)]
      exact ihm
  rw [keyUnion, List.replicate_succ, List.foldl_cons, h1]
  exact h2 n

/-- Looking up the key of the head record entry returns its value. -/
theorem lookupCell_head (c : String) (s : Scalar) (l : List (String × Scalar)) :
    lookupCell ((c, s) :: l) c = s := by
  simp [lookupCell, List.find?]

/-- Looking up a different key skips the head record entry. -/
theorem lookupCell_cons_ne (c c' : String) (s : Scalar) (l : List (String × Scalar))
    (h : c' ≠ c) : lookupCell ((c, s) :: l) c' = lookupCell l c' := by
  have hb : (c == c') = false := by
    simp only [beq_eq_false_iff_ne, ne_eq]
    exact fun he => h he.symm
  simp [lookupCell, List.find?, hb]

/-- Lookup skips an entire prefix whose keys all differ from the target. -/
theorem lookupCell_append_ne (pre l : List (String × Scalar)) (c : String)
    (h : ∀ kv ∈ pre, kv.1 ≠ c) :
    lookupCell (pre ++ l) c = lookupCell l c := by
  induction pre with
  | nil => rfl
  | cons kv rest ih =>
    obtain ⟨k, v⟩ := kv
    rw [List.cons_append,
      lookupCell_cons_ne k c v (rest ++ l) (fun he => h (k, v) (List.mem_cons_self _ _) he.symm)]
    exact ih (fun kv' h' => h kv' (List.mem_cons_of_mem _ h'))

/-- Mapping lookup over a duplicate-free column list recovers the zipped row,
in the presence of an irrelevant record prefix. -/
theorem map_lookup_zip_aux (cols : List String) :
    ∀ (row : List Scalar) (pre : List (String × Scalar)), cols.Nodup →
      row.length = cols.length → (∀ c ∈ cols, ∀ kv ∈ pre, kv.1 ≠ c) →
      cols.map (fun c => lookupCell (pre ++ cols.zip row) c) = row := by
  induction cols with
  | nil =>
    intro row pre _ hlen _
    simp at hlen
    simp [hlen]
  | cons c cs ih =>
    intro row pre hnd hlen hpre
    obtain ⟨hcc, hnd'⟩ := List.nodup_cons.mp hnd
    cases row with
    | nil => simp at hlen
    | cons s rs =>
      have hlen' : rs.length = cs.length := by simpa using hlen
      rw [List.zip_cons_cons, List.map_cons]
      have hhead : lookupCell (pre ++ (c, s) :: cs.zip rs) c = s := by
        rw [lookupCell_append_ne pre _ c (fun kv hkv => hpre c (List.mem_cons_self c cs) kv hkv),
          lookupCell_head]
      have htail : cs.map (fun c' => lookupCell (pre ++ (c, s) :: cs.zip rs) c') = rs := by
        have hassoc : pre ++ (c, s) :: cs.zip rs = (pre ++ [(c, s)]) ++ cs.zip rs := by simp
        rw [hassoc]
        apply ih rs (pre ++ [(c, s)]) hnd' hlen'
        intro c' hc' kv hkv
        rcases List.mem_append.mp hkv with h1 | h2
        · exact hpre c' (List.mem_cons_of_mem c hc') kv h1
        · rw [List.mem_singleton.mp h2]
          exact fun he => hcc ((show c = c' from he) ▸ hc')
      rw [hhead, htail]

/-- A row-oriented sequence of uniform records: one dict per row, each
mapping the shared column names (in order) to that row's scalar values. -/
def uniformRecords (cols : List String) (rows : List (List Scalar)) : PyVal :=
  .vlist (rows.map (fun row => .vdict ((cols.zip row).map (fun p => (p.1, PyVal.scalar p.2)))))

/-- Viewing a scalar-tagged association list as a record succeeds and
recovers the association list. -/
theorem mapO_record (l : List (String × Scalar)) :
    mapO (fun kv =>
      match kv.2 with
      | PyVal.scalar s => some (kv.1, s)
      | _ => none) (l.map (fun p => (p.1, PyVal.scalar p.2))) = some l := by
  induction l with
  | nil => rfl
  | cons p rest ih => simp [mapO, ih]

/-- The records view of a uniform-records list succeeds, recovering the
zipped association lists. -/
theorem mapO_recordOf_uniform (cols : List String) (rows : List (List Scalar)) :
    mapO recordOf?
      (rows.map (fun row => PyVal.vdict ((cols.zip row).map (fun p => (p.1, PyVal.scalar p.2)))))
      = some (rows.map (fun row => cols.zip row)) := by
  induction rows with
  | nil => rfl
  | cons row rest ih =>
    simp only [List.map_cons, mapO, recordOf?, mapO_record (cols.zip row), ih]

/-- The list branch of the DataFrame constructor, once every element is seen
as a record: ordered key union as columns, one looked-up row per record. -/
theorem pdDataFrame_vlist_records (xs : List PyVal) (recs : List (List (String × Scalar)))
    (h : mapO recordOf? xs = some recs) :
    pdDataFrame (.vlist xs)
      = .ok ⟨keyUnion (recs.map (fun r => r.map Prod.fst)),
          recs.map (fun r =>
            (keyUnion (recs.map (fun r => r.map Prod.fst))).map (fun c => lookupCell r c))⟩ := by
  simp [pdDataFrame, h]

/-- Converting a nonempty uniform-records reply builds exactly the expected
DataFrame: the shared keys as columns, one row per record, in order. -/
theorem pdDataFrame_uniform (cols : List String) (rows : List (List Scalar))
    (hnd : cols.Nodup) (hne : rows ≠ [])
    (hlen : ∀ row ∈ rows, row.length = cols.length) :
    pdDataFrame (uniformRecords cols rows) = .ok ⟨cols, rows⟩ := by
  obtain ⟨n, hn⟩ : ∃ n, rows.length = n + 1 := by
    cases rows with
    | nil => exact absurd rfl hne
    | cons r rest => exact ⟨rest.length, rfl⟩
  rw [uniformRecords, pdDataFrame_vlist_records _ _ (mapO_recordOf_uniform cols rows)]
  have hK : keyUnion ((rows.map (fun row => cols.zip row)).map (fun r => r.map Prod.fst))
      = cols := by
    rw [List.map_map]
    have hc : ∀ row ∈ rows, ((fun r => r.map Prod.fst) ∘ (fun row => cols.zip row)) row
        = cols := by
      intro row hrow
      simp only [Function.comp]
      exact List.map_fst_zip cols row (le_of_eq (hlen row hrow).symm)
    rw [List.map_congr_left hc, List.map_const', hn, keyUnion_replicate cols hnd n]
  rw [hK]
  have hR : (rows.map (fun row => cols.zip row)).map (fun r => cols.map (fun c => lookupCell r c))
      = rows := by
    rw [List.map_map]
    have hr : ∀ row ∈ rows,
        ((fun r => cols.map (fun c => lookupCell r c)) ∘ (fun row => cols.zip row)) row = row := by
      intro row hrow
      simp only [Function.comp]
      have h := map_lookup_zip_aux cols row [] hnd (hlen row hrow)
        (fun c _ kv hkv => absurd hkv (List.not_mem_nil kv))
      simpa using h
    rw [List.map_congr_left hr, List.map_id']
  rw [hR]

/-- Claim C4: for every engine reply that is a nonempty row-oriented sequence
of uniform key-value records (shared duplicate-free keys, one scalar per
key), `chat_with_csv` returns the DataFrame constructed from it — columns
named by the shared keys and one row per record, in the original order. -/
theorem dispatch_uniform_records (engine : Table → String → Except String PyVal)
    (df : Table) (prompt : String) (cols : List String) (rows : List (List Scalar))
    (hnd : cols.Nodup) (hne : rows ≠ [])
    (hlen : ∀ row ∈ rows, row.length = cols.length)
    (heng : engine df prompt = .ok (uniformRecords cols rows)) :
    chat_with_csv engine df prompt = ⟨.ok (.table ⟨cols, rows⟩), []⟩ := by
  have hpd := pdDataFrame_uniform cols rows hnd hne hlen
  rw [uniformRecords] at hpd
  unfold chat_with_csv
  rw [heng, uniformRecords]
  simp [hpd]

theorem dispatch_uniform_records_witness :
    chat_with_csv
      (fun _ _ => .ok (uniformRecords ["a", "b"] [[.sInt 1, .sInt 2], [.sInt 3, .sInt 4]]))
      ⟨[], []⟩ "tabulate"
      = ⟨.ok (.table ⟨["a", "b"], [[.sInt 1, .sInt 2], [.sInt 3, .sInt 4]]⟩), []⟩ :=
  dispatch_uniform_records _ _ _ ["a", "b"] [[.sInt 1, .sInt 2], [.sInt 3, .sInt 4]]
    (by decide) (by decide) (by decide) rfl

/-- Claim C7: a missing API credential halts startup with the visible error
message and stop — the emitted trace is exactly the error box and the stop,
so the upload and query UI is never reached, no table is ever displayed, and
the dispatcher is never invoked. -/
theorem missing_key_halts_startup (apiKey : Option String) (upload : Option Table)
    (queryText : String) (pressed : Bool) (engine : Table → String → Except String PyVal)
    (hk : pyFalsy apiKey = true) :
    appRun apiKey upload queryText pressed engine = [.errorBox keyMissingMsg, .stopped] ∧
    (∀ ev ∈ appRun apiKey upload queryText pressed engine,
      ev ≠ .uploaderW ∧ ev ≠ .dispatched ∧ ∀ v, ev ≠ .dataframeW v) := by
  have h : appRun apiKey upload queryText pressed engine
      = [.errorBox keyMissingMsg, .stopped] := by
    simp [appRun, hk]
  refine ⟨h, ?_⟩
  rw [h]
  intro ev hev
  rcases List.mem_cons.mp hev with h1 | h2
  · subst h1
    exact ⟨by simp, by simp, fun v => by simp⟩
  · rcases List.mem_cons.mp h2 with h3 | h4
    · subst h3
      exact ⟨by simp, by simp, fun v => by simp⟩
    · exact absurd h4 (List.not_mem_nil ev)

theorem missing_key_halts_startup_witness :
    appRun none (some ⟨["a"], [[.sInt 1]]⟩) "total?" true (fun _ _ => .ok (.scalar .sNone))
      = [.errorBox keyMissingMsg, .stopped] :=
  (missing_key_halts_startup none (some ⟨["a"], [[.sInt 1]]⟩) "total?" true
    (fun _ _ => .ok (.scalar .sNone)) rfl).1

/-- Claim C8: after the dispatcher returns normally, its result is always
passed to the generic success widget regardless of type; when the result is
a DataFrame it is additionally rendered via the dedicated grid widget — so a
DataFrame result is rendered twice and a non-DataFrame result only via the
generic widget. -/
theorem result_render_paths (apiKey : Option String) (data : Table) (queryText : String)
    (engine : Table → String → Except String PyVal) (result : PyVal) (log : List String)
    (hk : pyFalsy apiKey = false)
    (hd : chat_with_csv engine data queryText = ⟨.ok result, log⟩) :
    UIEvent.successW result ∈ appRun apiKey (some data) queryText true engine ∧
    (isTable result = true →
      UIEvent.dataframeW result ∈ appRun apiKey (some data) queryText true engine) ∧
    (isTable result = false →
      UIEvent.dataframeW result ∉ appRun apiKey (some data) queryText true engine) := by
  refine ⟨?_, ?_, ?_⟩
  · cases result with
    | table t => simp [appRun, hk, hd]
    | vlist xs => simp [appRun, hk, hd]
    | vdict kvs => simp [appRun, hk, hd]
    | scalar s => simp [appRun, hk, hd]
  · intro ht
    cases result with
    | table t => simp [appRun, hk, hd]
    | vlist xs => simp [isTable] at ht
    | vdict kvs => simp [isTable] at ht
    | scalar s => simp [isTable] at ht
  · intro ht
    cases result with
    | table t => simp [isTable] at ht
    | vlist xs => simp [appRun, hk, hd]
    | vdict kvs => simp [appRun, hk, hd]
    | scalar s => simp [appRun, hk, hd]

theorem result_render_paths_witness :
    UIEvent.successW (.table ⟨["b"], [[.sInt 2]]⟩)
      ∈ appRun (some "k") (some ⟨["a"], [[.sInt 1]]⟩) "q" true
          (fun _ _ => .ok (.table ⟨["b"], [[.sInt 2]]⟩)) ∧
    True :=
  ⟨(result_render_paths (some "k") ⟨["a"], [[.sInt 1]]⟩ "q"
      (fun _ _ => .ok (.table ⟨["b"], [[.sInt 2]]⟩)) (.table ⟨["b"], [[.sInt 2]]⟩) []
      rfl rfl).1, trivial⟩

/-- Claim C9: the startup credential check tests Python falsiness, not mere
presence — a key set to the empty string is treated exactly like an absent
key: the error message is shown and execution halts before any UI is built. -/
theorem empty_key_same_as_absent (upload : Option Table) (queryText : String)
    (pressed : Bool) (engine : Table → String → Except String PyVal) :
    appRun (some "") upload queryText pressed engine = [.errorBox keyMissingMsg, .stopped] ∧
    appRun (some "") upload queryText pressed engine
      = appRun none upload queryText pressed engine := by
  have h : pyFalsy (some "") = true := by decide
  constructor
  · simp [appRun, h]
  · have h2 : pyFalsy none = true := rfl
    simp [appRun, h, h2]
